import Mathlib

/-!
Shallow embedding of src/app.py (nucar-backend): a Flask service storing its whole
state as one JSON document.  Python dicts are modelled as insertion-ordered
association lists, JSON values as an inductive type, and each route handler as a
pure function from the persisted document (plus request data) to an optional
pair of new persisted document and HTTP status.  A handler result of none marks
an uncaught Python exception (KeyError/TypeError/RecursionError), in which case
nothing is saved.
-/

/-- JSON values, as produced by json.loads.  Numbers are modelled as integers,
which covers every numeric literal the service manipulates. -/
inductive JSON where
  | null
  | bool (b : Bool)
  | num (n : Int)
  | str (s : String)
  | arr (elems : List JSON)
  | obj (fields : List (String × JSON))

/-- A Python dict holding JSON values: an insertion-ordered association list. -/
abbrev Obj := List (String × JSON)

mutual
/-- Python structural equality (==) on JSON values. -/
def jsonBeq : JSON → JSON → Bool
  | .null, .null => true
  | .bool a, .bool b => a == b
  | .num a, .num b => a == b
  | .str a, .str b => a == b
  | .arr a, .arr b => jsonBeqList a b
  | .obj a, .obj b => jsonBeqObj a b
  | _, _ => false

/-- Elementwise Python equality of two JSON lists. -/
def jsonBeqList : List JSON → List JSON → Bool
  | [], [] => true
  | x :: xs, y :: ys => jsonBeq x y && jsonBeqList xs ys
  | _, _ => false

/-- Fieldwise Python equality of two JSON objects. -/
def jsonBeqObj : List (String × JSON) → List (String × JSON) → Bool
  | [], [] => true
  | (k₁, v₁) :: xs, (k₂, v₂) :: ys => k₁ == k₂ && jsonBeq v₁ v₂ && jsonBeqObj xs ys
  | _, _ => false
end

/-- x in l: Python list membership, by Python equality. -/
def pyIn (x : JSON) : List JSON → Bool
  | [] => false
  | y :: ys => jsonBeq x y || pyIn x ys

/-- d.get(k) / d[k]: the value of the first binding of k, if any. -/
def dictGet : Obj → String → Option JSON
  | [], _ => none
  | (k₁, v) :: rest, k => if k₁ = k then some v else dictGet rest k

/-- d.get(k, dflt). -/
def dictGetD (d : Obj) (k : String) (dflt : JSON) : JSON :=
  (dictGet d k).getD dflt

/-- k in d. -/
def dictMem (d : Obj) (k : String) : Bool :=
  (dictGet d k).isSome

/-- d[k] = v: overwrite in place when the key exists, append otherwise. -/
def dictSet : Obj → String → JSON → Obj
  | [], k, v => [(k, v)]
  | (k₁, v₁) :: rest, k, v =>
    if k₁ = k then (k, v) :: rest else (k₁, v₁) :: dictSet rest k v

/-- del d[k]: drop the first binding of k. -/
def dictDel : Obj → String → Obj
  | [], _ => []
  | (k₁, v₁) :: rest, k => if k₁ = k then rest else (k₁, v₁) :: dictDel rest k

/-- The keys of a dict are pairwise distinct; true of every dict produced by
json.loads or by the dict operations above. -/
def keysNodup (d : Obj) : Prop := (d.map Prod.fst).Nodup

/-- Using a JSON value as a Python list; anything else raises when iterated. -/
def asArr : JSON → Option (List JSON)
  | .arr l => some l
  | _ => none

/-- Python truthiness of a JSON value. -/
def pyTruthy : JSON → Bool
  | .null => false
  | .bool b => b
  | .num n => n != 0
  | .str s => s != ""
  | .arr l => !l.isEmpty
  | .obj f => !f.isEmpty

-- Lemmas about Python equality ----------------------------------------------

mutual
theorem jsonBeq_refl : ∀ a : JSON, jsonBeq a a = true
  | .null => rfl
  | .bool b => by simp [jsonBeq]
  | .num n => by simp [jsonBeq]
  | .str s => by simp [jsonBeq]
  | .arr l => by simpa [jsonBeq] using jsonBeqList_refl l
  | .obj f => by simpa [jsonBeq] using jsonBeqObj_refl f

theorem jsonBeqList_refl : ∀ l : List JSON, jsonBeqList l l = true
  | [] => rfl
  | x :: xs => by simp [jsonBeqList, jsonBeq_refl x, jsonBeqList_refl xs]

theorem jsonBeqObj_refl : ∀ d : List (String × JSON), jsonBeqObj d d = true
  | [] => rfl
  | (k, v) :: xs => by simp [jsonBeqObj, jsonBeq_refl v, jsonBeqObj_refl xs]
end

theorem jsonBeq_str_iff (s : String) (x : JSON) :
    jsonBeq (.str s) x = true ↔ x = .str s := by
  cases x with
  | str t =>
    simp only [jsonBeq, beq_iff_eq, JSON.str.injEq]
    exact eq_comm
  | null => simp [jsonBeq]
  | bool b => simp [jsonBeq]
  | num n => simp [jsonBeq]
  | arr l => simp [jsonBeq]
  | obj f => simp [jsonBeq]

theorem pyIn_str_iff (s : String) (l : List JSON) :
    pyIn (.str s) l = true ↔ (JSON.str s) ∈ l := by
  induction l with
  | nil => simp [pyIn]
  | cons y ys ih =>
    simp [pyIn, ih, jsonBeq_str_iff]
    constructor
    · rintro (h | h)
      · exact Or.inl h.symm
      · exact Or.inr h
    · rintro (h | h)
      · exact Or.inl h.symm
      · exact Or.inr h

theorem pyIn_eq_false_not_mem (x : JSON) (l : List JSON) (h : pyIn x l = false) :
    x ∉ l := by
  intro hmem
  induction l with
  | nil => simp at hmem
  | cons y ys ih =>
    simp only [pyIn, Bool.or_eq_false_iff] at h
    rcases List.mem_cons.mp hmem with h₁ | h₁
    · subst h₁
      exact absurd (jsonBeq_refl x) (by simp [h.1])
    · exact ih h.2 h₁

-- Basic dictionary lemmas ----------------------------------------------------

theorem dictGet_dictSet_self (d : Obj) (k : String) (v : JSON) :
    dictGet (dictSet d k v) k = some v := by
  induction d with
  | nil => simp [dictSet, dictGet]
  | cons p rest ih =>
    obtain ⟨k₁, v₁⟩ := p
    by_cases h : k₁ = k <;> simp [dictSet, dictGet, h, ih]

theorem dictGet_dictSet_ne (d : Obj) (k k₀ : String) (v : JSON) (h : k₀ ≠ k) :
    dictGet (dictSet d k v) k₀ = dictGet d k₀ := by
  induction d with
  | nil => simp [dictSet, dictGet, Ne.symm h]
  | cons p rest ih =>
    obtain ⟨k₁, v₁⟩ := p
    by_cases h₁ : k₁ = k
    · subst h₁
      simp [dictSet, dictGet, Ne.symm h, h]
    · simp [dictSet, dictGet, h₁, ih]

theorem dictGet_dictDel_ne (d : Obj) (k k₀ : String) (h : k₀ ≠ k) :
    dictGet (dictDel d k) k₀ = dictGet d k₀ := by
  induction d with
  | nil => simp [dictDel]
  | cons p rest ih =>
    obtain ⟨k₁, v₁⟩ := p
    by_cases h₁ : k₁ = k
    · subst h₁
      simp [dictDel, dictGet, Ne.symm h]
    · simp [dictDel, dictGet, h₁, ih]

theorem dictGet_eq_none_of_not_mem (d : Obj) (k : String)
    (h : k ∉ d.map Prod.fst) : dictGet d k = none := by
  induction d with
  | nil => simp [dictGet]
  | cons p rest ih =>
    obtain ⟨k₁, v₁⟩ := p
    simp only [List.map_cons, List.mem_cons] at h
    push_neg at h
    simp [dictGet, Ne.symm h.1, ih h.2]

theorem dictGet_dictDel_self (d : Obj) (k : String) (h : keysNodup d) :
    dictGet (dictDel d k) k = none := by
  induction d with
  | nil => simp [dictDel, dictGet]
  | cons p rest ih =>
    obtain ⟨k₁, v₁⟩ := p
    have h₂ : keysNodup rest := (List.nodup_cons.mp h).2
    by_cases h₁ : k₁ = k
    · subst h₁
      have : k₁ ∉ rest.map Prod.fst := (List.nodup_cons.mp h).1
      simp [dictDel, dictGet_eq_none_of_not_mem rest k₁ this]
    · simp [dictDel, dictGet, h₁, ih h₂]

-- Finding a record by id ------------------------------------------------------

/-- next((i for i, p in enumerate(items) if p[quote id quote] == wanted), None),
also returning the fields of the matched record.  The generator is lazy, so
records after the first match are never inspected; a non-dict record or a
record without an id raises (outer none). -/
def findById : List JSON → String → Nat → Option (Option (Nat × Obj))
  | [], _, _ => some none
  | x :: xs, wanted, i =>
    match x with
    | .obj f =>
      match dictGet f "id" with
      | some v =>
        match v with
        | .str s => if s = wanted then some (some (i, f)) else findById xs wanted (i + 1)
        | _ => findById xs wanted (i + 1)
      | none => none
    | _ => none

theorem findById_spec (ps : List JSON) (wanted : String) :
    ∀ n i f, findById ps wanted n = some (some (i, f)) →
      n ≤ i ∧ i - n < ps.length ∧ ps[i - n]? = some (.obj f) ∧
        dictGet f "id" = some (.str wanted) := by
  induction ps with
  | nil => intro n i f h; simp [findById] at h
  | cons x xs ih =>
    intro n i f h
    simp only [findById] at h
    cases x with
    | obj g =>
      cases hid : dictGet g "id" with
      | none => simp [hid] at h
      | some v =>
        simp only [hid] at h
        cases v with
        | str s =>
          by_cases hs : s = wanted
          · subst hs
            simp only [if_pos rfl] at h
            obtain ⟨h₁, h₂⟩ := Option.some.injEq _ _ ▸ h
            · cases h
              exact ⟨le_refl _, by simp, by simp [hid]⟩
          · simp only [if_neg hs] at h
            obtain ⟨hle, hlt, hget, hid₂⟩ := ih (n + 1) i f h
            refine ⟨by omega, by simp; omega, ?_, hid₂⟩
            have : i - n = (i - (n + 1)) + 1 := by omega
            rw [this]
            simpa using hget
        | null =>
          obtain ⟨hle, hlt, hget, hid₂⟩ := ih (n + 1) i f h
          refine ⟨by omega, by simp; omega, ?_, hid₂⟩
          have : i - n = (i - (n + 1)) + 1 := by omega
          rw [this]
          simpa using hget
        | bool b =>
          obtain ⟨hle, hlt, hget, hid₂⟩ := ih (n + 1) i f h
          refine ⟨by omega, by simp; omega, ?_, hid₂⟩
          have : i - n = (i - (n + 1)) + 1 := by omega
          rw [this]
          simpa using hget
        | num m =>
          obtain ⟨hle, hlt, hget, hid₂⟩ := ih (n + 1) i f h
          refine ⟨by omega, by simp; omega, ?_, hid₂⟩
          have : i - n = (i - (n + 1)) + 1 := by omega
          rw [this]
          simpa using hget
        | arr l =>
          obtain ⟨hle, hlt, hget, hid₂⟩ := ih (n + 1) i f h
          refine ⟨by omega, by simp; omega, ?_, hid₂⟩
          have : i - n = (i - (n + 1)) + 1 := by omega
          rw [this]
          simpa using hget
        | obj o =>
          obtain ⟨hle, hlt, hget, hid₂⟩ := ih (n + 1) i f h
          refine ⟨by omega, by simp; omega, ?_, hid₂⟩
          have : i - n = (i - (n + 1)) + 1 := by omega
          rw [this]
          simpa using hget
    | null => simp at h
    | bool b => simp at h
    | num m => simp at h
    | str s => simp at h
    | arr l => simp at h

theorem findById_zero (ps : List JSON) (wanted : String) (i : Nat) (f : Obj)
    (h : findById ps wanted 0 = some (some (i, f))) :
    i < ps.length ∧ ps[i]? = some (.obj f) ∧ dictGet f "id" = some (.str wanted) := by
  obtain ⟨_, h₁, h₂, h₃⟩ := findById_spec ps wanted 0 i f h
  simpa using ⟨h₁, h₂, h₃⟩

-- Storage accessor (get_db_data / save_db_data) -------------------------------

/-- The default document created by get_db_data when the store file is absent. -/
def default_data : Obj :=
  [("providers", .arr []),
   ("reports", .arr []),
   ("reguladores", .arr []),
   ("etiquetas", .obj
      [("aih-mac", .obj [("history", .arr []), ("current_start", .str "282510110834")]),
       ("aih-faec", .obj [("history", .arr []), ("current_start", .str "282550000201")]),
       ("apac-mac", .obj [("history", .arr []), ("current_start", .str "282520119134")]),
       ("apac-faec", .obj [("history", .arr []), ("current_start", .str "282560000251")])]),
   ("bloqueio_providers", .arr []),
   ("bloqueio_alteracoes", .arr []),
   ("users", .arr [.str "74892016357"]),
   ("waiting_list", .arr [])]

/-- The persisted database file: either absent or holding raw text. -/
inductive FileState where
  | missing
  | contents (s : String)

/-- get_db_data.  json.loads and json.dump are library code, passed in as a
parse function (none on malformed input) and a serializer.  The fuel argument
bounds the recursion depth: a result of none means the Python call exhausts the
interpreter stack (RecursionError) instead of returning.  On a missing file the
default document is written back and returned; on empty content the code calls
itself again with the file unchanged; on content that fails to parse it returns
an empty document. -/
def get_db_data (parse : String → Option JSON) (dump : JSON → String) :
    Nat → FileState → Option (JSON × FileState)
  | _, .missing =>
    some (.obj default_data, .contents (dump (.obj default_data)))
  | fuel, .contents s =>
    if s = "" then
      match fuel with
      | 0 => none
      | f + 1 => get_db_data parse dump f (.contents s)
    else
      match parse s with
      | some j => some (j, .contents s)
      | none => some (.obj [], .contents s)

-- Route handlers --------------------------------------------------------------
-- Each handler takes the request data and the persisted document and returns
-- the document to be persisted together with the HTTP status (none = uncaught
-- exception, nothing saved).  When a handler does not call save_db_data, the
-- returned document is the unchanged input.

/-- POST /api/login. -/
def login (cpf : Option JSON) (data : Obj) : Option Nat :=
  match asArr (dictGetD data "users" (.arr [])) with
  | none => none
  | some users =>
    if pyIn (cpf.getD .null) users then some 200 else some 401

/-- POST /api/users.  The cpf is request.json.get, so may be absent (None). -/
def add_user (cpf : Option JSON) (data : Obj) : Option (Obj × Nat) :=
  let c := cpf.getD .null
  if pyTruthy c then
    match asArr (dictGetD data "users" (.arr [])) with
    | none => none
    | some users =>
      if pyIn c users then some (data, 400)
      else some (dictSet data "users" (.arr (users ++ [c])), 201)
  else some (data, 400)

/-- DELETE /api/users/cpf.  users.remove drops the first equal element. -/
def delete_user (cpf : String) (data : Obj) : Option (Obj × Nat) :=
  match asArr (dictGetD data "users" (.arr [])) with
  | none => none
  | some users =>
    if pyIn (.str cpf) users then
      some (dictSet data "users" (.arr (users.eraseP (fun y => jsonBeq y (.str cpf)))), 200)
    else some (data, 404)

/-- PUT /api/waitinglist/item_id.  Only the name and count fields are written;
the .get default arguments are evaluated eagerly, so a stored record without a
name or count raises even when the body supplies one. -/
def update_waiting_list_item (item_id : String) (body data : Obj) :
    Option (Obj × Nat) :=
  match asArr (dictGetD data "waiting_list" (.arr [])) with
  | none => none
  | some wl =>
    match findById wl item_id 0 with
    | none => none
    | some none => some (data, 404)
    | some (some (i, old)) =>
      match dictGet old "name" with
      | none => none
      | some oldName =>
        let r₁ := dictSet old "name" (dictGetD body "name" oldName)
        match dictGet r₁ "count" with
        | none => none
        | some oldCount =>
          let r₂ := dictSet r₁ "count" (dictGetD body "count" oldCount)
          some (dictSet data "waiting_list" (.arr (wl.set i (.obj r₂))), 200)

/-- PUT /api/providers/provider_id: the body replaces the stored record, after
the execution field of the old record is copied into it and the id is forced
back to the path id. -/
def update_provider (provider_id : String) (body data : Obj) : Option (Obj × Nat) :=
  match asArr (dictGetD data "providers" (.arr [])) with
  | none => none
  | some providers =>
    match findById providers provider_id 0 with
    | none => none
    | some none => some (data, 404)
    | some (some (i, old)) =>
      let updated := dictSet body "execution" (dictGetD old "execution" (.obj []))
      let updated₂ := dictSet updated "id" (.str provider_id)
      some (dictSet data "providers" (.arr (providers.set i (.obj updated₂))), 200)

/-- PUT /api/providers/provider_id/execution: writes one month entry of the
execution map of the matched provider, creating the map when the key is absent.
A present execution value that is not a dict cannot be subscripted (none). -/
def update_execution (provider_id month_key : String) (d : JSON) (data : Obj) :
    Option (Obj × Nat) :=
  match asArr (dictGetD data "providers" (.arr [])) with
  | none => none
  | some providers =>
    match findById providers provider_id 0 with
    | none => none
    | some none => some (data, 404)
    | some (some (i, old)) =>
      let withExec := if dictMem old "execution" then old
        else dictSet old "execution" (.obj [])
      match dictGet withExec "execution" with
      | some (.obj ex) =>
        let r := dictSet withExec "execution" (.obj (dictSet ex month_key d))
        some (dictSet data "providers" (.arr (providers.set i (.obj r))), 200)
      | _ => none

/-- DELETE /api/providers/provider_id/execution/month_key.  The modelled states
keep execution a dict; membership in a non-dict value is left out (none). -/
def delete_execution (provider_id month_key : String) (data : Obj) :
    Option (Obj × Nat) :=
  match asArr (dictGetD data "providers" (.arr [])) with
  | none => none
  | some providers =>
    match findById providers provider_id 0 with
    | none => none
    | some none => some (data, 404)
    | some (some (i, old)) =>
      match dictGet old "execution" with
      | some (.obj ex) =>
        if dictMem ex month_key then
          let r := dictSet old "execution" (.obj (dictDel ex month_key))
          some (dictSet data "providers" (.arr (providers.set i (.obj r))), 200)
        else some (data, 404)
      | some _ => none
      | none => some (data, 404)

/-- PUT /api/reguladores/regulador_id: the body replaces the stored record and
the id is forced back to the path id. -/
def handle_single_regulador_put (regulador_id : String) (body data : Obj) :
    Option (Obj × Nat) :=
  match asArr (dictGetD data "reguladores" (.arr [])) with
  | none => none
  | some reguladores =>
    match findById reguladores regulador_id 0 with
    | none => none
    | some none => some (data, 404)
    | some (some (i, _)) =>
      let updated := dictSet body "id" (.str regulador_id)
      some (dictSet data "reguladores" (.arr (reguladores.set i (.obj updated))), 200)

/-- PUT /api/bloqueio/providers/provider_id: the body replaces the stored
record and the id is forced back to the path id. -/
def update_bloqueio_provider (provider_id : String) (body data : Obj) :
    Option (Obj × Nat) :=
  match asArr (dictGetD data "bloqueio_providers" (.arr [])) with
  | none => none
  | some providers =>
    match findById providers provider_id 0 with
    | none => none
    | some none => some (data, 404)
    | some (some (i, _)) =>
      let updated := dictSet body "id" (.str provider_id)
      some (dictSet data "bloqueio_providers" (.arr (providers.set i (.obj updated))), 200)

/-- POST /api/etiquetas, the write branch of handle_etiquetas.  A known type
appends the entry to that series and overwrites its cursor; an unknown type is
rejected with 400 and nothing is saved.  A type value that parsed-JSON keys can
never equal (null, bool, num) falls to the 400 branch; an unhashable type value
(list, dict) raises, as does a series or etiquetas value that is not a dict or
a history that is not a list. -/
def handle_etiquetas_post (body data : Obj) : Option (Obj × Nat) :=
  match dictGet body "type" with
  | none => none
  | some tipo =>
    match dictGetD data "etiquetas" (.obj []) with
    | .obj et =>
      match tipo with
      | .str t =>
        if dictMem et t then
          match dictGet et t with
          | some (.obj series) =>
            match dictGet series "history" with
            | some (.arr h) =>
              match dictGet body "entry" with
              | none => none
              | some entry =>
                let series₁ := dictSet series "history" (.arr (h ++ [entry]))
                match dictGet body "next_start" with
                | none => none
                | some ns =>
                  let series₂ := dictSet series₁ "current_start" ns
                  some (dictSet data "etiquetas" (.obj (dictSet et t (.obj series₂))), 200)
            | _ => none
          | _ => none
        else some (data, 400)
      | .null => some (data, 400)
      | .bool _ => some (data, 400)
      | .num _ => some (data, 400)
      | _ => none
    | _ => none

-- Claim C2 --------------------------------------------------------------------

/-- C2: load was claimed to terminate with an empty state on every read
failure.  Corrupt (non-JSON, nonempty) content does return the empty document,
but an empty file makes get_db_data call itself with the file still present and
still empty, so no amount of fuel lets it return: the request dies with a
RecursionError instead of getting an empty state.  This contradicts the
comment in the code, which says the empty-file branch returns a default
structure to avoid errors. -/
theorem C2_load_read_failure :
    (∀ (parse : String → Option JSON) (dump : JSON → String) (fuel : Nat),
        get_db_data parse dump fuel (.contents "") = none) ∧
    (∀ (parse : String → Option JSON) (dump : JSON → String) (fuel : Nat)
        (s : String), s ≠ "" → parse s = none →
        get_db_data parse dump fuel (.contents s) = some (.obj [], .contents s)) := by
  constructor
  · intro parse dump fuel
    induction fuel with
    | zero => simp [get_db_data]
    | succ f ih => simp [get_db_data, ih]
  · intro parse dump fuel s hs hp
    cases fuel <;> simp [get_db_data, hs, hp]

/-- C2 witness: the corrupt-content half evaluated at a concrete input. -/
theorem C2_witness :
    get_db_data (fun _ => none) (fun _ => "") 5 (.contents "x")
      = some (.obj [], .contents "x") :=
  C2_load_read_failure.2 (fun _ => none) (fun _ => "") 5 "x" (by decide) rfl

-- Claim C3 --------------------------------------------------------------------

/-- C3 counterexample: on a missing store the synthesized document does not
have an empty users collection; it holds the default CPF. -/
theorem C3_counterexample :
    get_db_data (fun _ => none) (fun _ => "") 0 .missing
      = some (.obj default_data, .contents "") ∧
    dictGet default_data "users" = some (.arr [.str "74892016357"]) ∧
    JSON.arr [.str "74892016357"] ≠ .arr [] := by
  refine ⟨rfl, rfl, ?_⟩
  simp

/-- C3 amended: on a missing store, load synthesizes and persists the default
document; providers, reports, reguladores, bloqueio collections and the
waiting list are empty, users holds exactly the default CPF 74892016357, and
the four etiqueta series have empty histories and their fixed starting
cursors. -/
theorem C3_default_document (parse : String → Option JSON) (dump : JSON → String)
    (fuel : Nat) :
    get_db_data parse dump fuel .missing
      = some (.obj default_data, .contents (dump (.obj default_data))) ∧
    dictGet default_data "providers" = some (.arr []) ∧
    dictGet default_data "reports" = some (.arr []) ∧
    dictGet default_data "reguladores" = some (.arr []) ∧
    dictGet default_data "bloqueio_providers" = some (.arr []) ∧
    dictGet default_data "bloqueio_alteracoes" = some (.arr []) ∧
    dictGet default_data "waiting_list" = some (.arr []) ∧
    dictGet default_data "users" = some (.arr [.str "74892016357"]) ∧
    dictGet default_data "etiquetas" = some (.obj
      [("aih-mac", .obj [("history", .arr []), ("current_start", .str "282510110834")]),
       ("aih-faec", .obj [("history", .arr []), ("current_start", .str "282550000201")]),
       ("apac-mac", .obj [("history", .arr []), ("current_start", .str "282520119134")]),
       ("apac-faec", .obj [("history", .arr []), ("current_start", .str "282560000251")])]) := by
  refine ⟨?_, rfl, rfl, rfl, rfl, rfl, rfl, rfl, rfl⟩
  cases fuel <;> rfl

-- Claim C1 --------------------------------------------------------------------

/-- C1: a provider PUT keeps the execution field of the old record no matter
what the body carries for it, forces the id to the path id, and takes every
other field from the body. -/
theorem C1_update_preserves_execution
    (data body : Obj) (pid : String) (ps : List JSON) (i : Nat) (old : Obj)
    (hps : dictGetD data "providers" (.arr []) = .arr ps)
    (hfind : findById ps pid 0 = some (some (i, old))) :
    ∃ data₂ r,
      update_provider pid body data = some (data₂, 200) ∧
      dictGet data₂ "providers" = some (.arr (ps.set i (.obj r))) ∧
      (∀ e, dictGet old "execution" = some e → dictGet r "execution" = some e) ∧
      dictGet r "execution" = some (dictGetD old "execution" (.obj [])) ∧
      dictGet r "id" = some (.str pid) ∧
      (∀ k, k ≠ "execution" → k ≠ "id" → dictGet r k = dictGet body k) := by
  have hup : update_provider pid body data =
      some (dictSet data "providers" (.arr (ps.set i (.obj
        (dictSet (dictSet body "execution" (dictGetD old "execution" (.obj [])))
          "id" (.str pid))))), 200) := by
    simp [update_provider, hps, asArr, hfind]
  refine ⟨_, _, hup, dictGet_dictSet_self _ _ _, ?_, ?_, ?_, ?_⟩
  · intro e he
    rw [dictGet_dictSet_ne _ _ _ _ (by decide), dictGet_dictSet_self]
    simp [dictGetD, he]
  · rw [dictGet_dictSet_ne _ _ _ _ (by decide), dictGet_dictSet_self]
  · exact dictGet_dictSet_self _ _ _
  · intro k hk₁ hk₂
    rw [dictGet_dictSet_ne _ _ _ _ hk₂, dictGet_dictSet_ne _ _ _ _ hk₁]

/-- C1 witness: a provider whose body tries to overwrite execution. -/
theorem C1_witness :
    ∃ data₂ r,
      update_provider "p1" [("name", .str "B"), ("execution", .str "bogus")]
          [("providers", .arr [.obj [("id", .str "p1"),
            ("execution", .obj [("2024-01", .num 5)]), ("name", .str "A")]])]
        = some (data₂, 200) ∧
      dictGet data₂ "providers" = some (.arr
        ([JSON.obj [("id", .str "p1"), ("execution", .obj [("2024-01", .num 5)]),
          ("name", .str "A")]].set 0 (.obj r))) ∧
      (∀ e, dictGet [("id", JSON.str "p1"),
          ("execution", .obj [("2024-01", .num 5)]), ("name", .str "A")]
          "execution" = some e → dictGet r "execution" = some e) ∧
      dictGet r "execution" = some (dictGetD [("id", JSON.str "p1"),
          ("execution", .obj [("2024-01", .num 5)]), ("name", .str "A")]
          "execution" (.obj [])) ∧
      dictGet r "id" = some (.str "p1") ∧
      (∀ k, k ≠ "execution" → k ≠ "id" →
        dictGet r k = dictGet [("name", JSON.str "B"), ("execution", .str "bogus")] k) :=
  C1_update_preserves_execution _ _ "p1"
    [.obj [("id", .str "p1"), ("execution", .obj [("2024-01", .num 5)]),
      ("name", .str "A")]] 0
    [("id", .str "p1"), ("execution", .obj [("2024-01", .num 5)]), ("name", .str "A")]
    rfl rfl

-- Claim C9 --------------------------------------------------------------------

/-- C9: after any successful PUT on providers, reguladores, bloqueio providers
or the waiting list, the stored record has the path id, whatever id the body
carried.  The first three force the id after the replacement; the waiting-list
handler writes only name and count, so the matched id is untouched. -/
theorem C9_update_forces_path_id :
    (∀ (data body : Obj) (pid : String) (ps : List JSON) (i : Nat) (old : Obj),
       dictGetD data "providers" (.arr []) = .arr ps →
       findById ps pid 0 = some (some (i, old)) →
       ∃ data₂ r, update_provider pid body data = some (data₂, 200) ∧
         dictGet data₂ "providers" = some (.arr (ps.set i (.obj r))) ∧
         dictGet r "id" = some (.str pid)) ∧
    (∀ (data body : Obj) (rid : String) (rs : List JSON) (i : Nat) (old : Obj),
       dictGetD data "reguladores" (.arr []) = .arr rs →
       findById rs rid 0 = some (some (i, old)) →
       ∃ data₂ r, handle_single_regulador_put rid body data = some (data₂, 200) ∧
         dictGet data₂ "reguladores" = some (.arr (rs.set i (.obj r))) ∧
         dictGet r "id" = some (.str rid)) ∧
    (∀ (data body : Obj) (pid : String) (bs : List JSON) (i : Nat) (old : Obj),
       dictGetD data "bloqueio_providers" (.arr []) = .arr bs →
       findById bs pid 0 = some (some (i, old)) →
       ∃ data₂ r, update_bloqueio_provider pid body data = some (data₂, 200) ∧
         dictGet data₂ "bloqueio_providers" = some (.arr (bs.set i (.obj r))) ∧
         dictGet r "id" = some (.str pid)) ∧
    (∀ (data body : Obj) (iid : String) (wl : List JSON) (i : Nat) (old : Obj)
        (oldName oldCount : JSON),
       dictGetD data "waiting_list" (.arr []) = .arr wl →
       findById wl iid 0 = some (some (i, old)) →
       dictGet old "name" = some oldName →
       dictGet old "count" = some oldCount →
       ∃ data₂ r, update_waiting_list_item iid body data = some (data₂, 200) ∧
         dictGet data₂ "waiting_list" = some (.arr (wl.set i (.obj r))) ∧
         dictGet r "id" = some (.str iid)) := by
  refine ⟨?_, ?_, ?_, ?_⟩
  · intro data body pid ps i old hps hfind
    have hup : update_provider pid body data =
        some (dictSet data "providers" (.arr (ps.set i (.obj
          (dictSet (dictSet body "execution" (dictGetD old "execution" (.obj [])))
            "id" (.str pid))))), 200) := by
      simp [update_provider, hps, asArr, hfind]
    exact ⟨_, _, hup, dictGet_dictSet_self _ _ _, dictGet_dictSet_self _ _ _⟩
  · intro data body rid rs i old hrs hfind
    have hup : handle_single_regulador_put rid body data =
        some (dictSet data "reguladores" (.arr (rs.set i (.obj
          (dictSet body "id" (.str rid))))), 200) := by
      simp [handle_single_regulador_put, hrs, asArr, hfind]
    exact ⟨_, _, hup, dictGet_dictSet_self _ _ _, dictGet_dictSet_self _ _ _⟩
  · intro data body pid bs i old hbs hfind
    have hup : update_bloqueio_provider pid body data =
        some (dictSet data "bloqueio_providers" (.arr (bs.set i (.obj
          (dictSet body "id" (.str pid))))), 200) := by
      simp [update_bloqueio_provider, hbs, asArr, hfind]
    exact ⟨_, _, hup, dictGet_dictSet_self _ _ _, dictGet_dictSet_self _ _ _⟩
  · intro data body iid wl i old oldName oldCount hwl hfind hname hcount
    have hidold : dictGet old "id" = some (.str iid) := (findById_zero wl iid i old hfind).2.2
    have hc : dictGet (dictSet old "name" (dictGetD body "name" oldName)) "count"
        = some oldCount := by
      rw [dictGet_dictSet_ne _ _ _ _ (by decide)]
      exact hcount
    have hup : update_waiting_list_item iid body data =
        some (dictSet data "waiting_list" (.arr (wl.set i (.obj
          (dictSet (dictSet old "name" (dictGetD body "name" oldName))
            "count" (dictGetD body "count" oldCount))))), 200) := by
      simp [update_waiting_list_item, hwl, asArr, hfind, hname, hc]
    refine ⟨_, _, hup, dictGet_dictSet_self _ _ _, ?_⟩
    rw [dictGet_dictSet_ne _ _ _ _ (by decide), dictGet_dictSet_ne _ _ _ _ (by decide)]
    exact hidold

/-- C9 witness: a waiting-list PUT whose body carries a different id. -/
theorem C9_witness :
    ∃ data₂ r,
      update_waiting_list_item "w1" [("id", .str "w999"), ("name", .str "b")]
          [("waiting_list", .arr [.obj
            [("id", .str "w1"), ("name", .str "a"), ("count", .num 1)]])]
        = some (data₂, 200) ∧
      dictGet data₂ "waiting_list" = some (.arr
        ([JSON.obj [("id", .str "w1"), ("name", .str "a"), ("count", .num 1)]].set 0
          (.obj r))) ∧
      dictGet r "id" = some (.str "w1") :=
  C9_update_forces_path_id.2.2.2 _ _ "w1"
    [.obj [("id", .str "w1"), ("name", .str "a"), ("count", .num 1)]] 0
    [("id", .str "w1"), ("name", .str "a"), ("count", .num 1)]
    (.str "a") (.num 1) rfl rfl rfl rfl

-- Claim C4 --------------------------------------------------------------------

/-- C4 counterexample: a waiting-list PUT does not replace the stored record
with the body.  The body sets extra to y, yet the stored record keeps its old
extra value x, and a body without a field leaves the old value in place; only
name and count are written. -/
theorem C4_counterexample :
    update_waiting_list_item "w1"
        [("name", .str "b"), ("count", .num 2), ("extra", .str "y")]
        [("waiting_list", .arr [.obj
          [("id", .str "w1"), ("name", .str "a"), ("count", .num 1),
           ("extra", .str "x")]])]
      = some ([("waiting_list", .arr [.obj
          [("id", .str "w1"), ("name", .str "b"), ("count", .num 2),
           ("extra", .str "x")]])], 200) ∧
    JSON.str "x" ≠ .str "y" := by
  refine ⟨rfl, ?_⟩
  simp

/-- C4 amended: PUT on providers, reguladores and bloqueio providers replaces
the whole stored record with the body (id forced to the path id, and for
providers the old execution value carried over); PUT on the waiting list only
writes name and count, each taken from the body when present and kept from the
old record otherwise, leaving every other stored field untouched.  All four
fail with 404, leaving the state unchanged, when no record matches the id. -/
theorem C4_put_semantics :
    (∀ (data body : Obj) (pid : String) (ps : List JSON) (i : Nat) (old : Obj),
       dictGetD data "providers" (.arr []) = .arr ps →
       findById ps pid 0 = some (some (i, old)) →
       ∃ data₂ r, update_provider pid body data = some (data₂, 200) ∧
         dictGet data₂ "providers" = some (.arr (ps.set i (.obj r))) ∧
         dictGet r "id" = some (.str pid) ∧
         dictGet r "execution" = some (dictGetD old "execution" (.obj [])) ∧
         (∀ k, k ≠ "id" → k ≠ "execution" → dictGet r k = dictGet body k)) ∧
    (∀ (data body : Obj) (pid : String) (ps : List JSON),
       dictGetD data "providers" (.arr []) = .arr ps →
       findById ps pid 0 = some none →
       update_provider pid body data = some (data, 404)) ∧
    (∀ (data body : Obj) (rid : String) (rs : List JSON) (i : Nat) (old : Obj),
       dictGetD data "reguladores" (.arr []) = .arr rs →
       findById rs rid 0 = some (some (i, old)) →
       ∃ data₂ r, handle_single_regulador_put rid body data = some (data₂, 200) ∧
         dictGet data₂ "reguladores" = some (.arr (rs.set i (.obj r))) ∧
         dictGet r "id" = some (.str rid) ∧
         (∀ k, k ≠ "id" → dictGet r k = dictGet body k)) ∧
    (∀ (data body : Obj) (rid : String) (rs : List JSON),
       dictGetD data "reguladores" (.arr []) = .arr rs →
       findById rs rid 0 = some none →
       handle_single_regulador_put rid body data = some (data, 404)) ∧
    (∀ (data body : Obj) (pid : String) (bs : List JSON) (i : Nat) (old : Obj),
       dictGetD data "bloqueio_providers" (.arr []) = .arr bs →
       findById bs pid 0 = some (some (i, old)) →
       ∃ data₂ r, update_bloqueio_provider pid body data = some (data₂, 200) ∧
         dictGet data₂ "bloqueio_providers" = some (.arr (bs.set i (.obj r))) ∧
         dictGet r "id" = some (.str pid) ∧
         (∀ k, k ≠ "id" → dictGet r k = dictGet body k)) ∧
    (∀ (data body : Obj) (pid : String) (bs : List JSON),
       dictGetD data "bloqueio_providers" (.arr []) = .arr bs →
       findById bs pid 0 = some none →
       update_bloqueio_provider pid body data = some (data, 404)) ∧
    (∀ (data body : Obj) (iid : String) (wl : List JSON) (i : Nat) (old : Obj)
        (oldName oldCount : JSON),
       dictGetD data "waiting_list" (.arr []) = .arr wl →
       findById wl iid 0 = some (some (i, old)) →
       dictGet old "name" = some oldName →
       dictGet old "count" = some oldCount →
       ∃ data₂ r, update_waiting_list_item iid body data = some (data₂, 200) ∧
         dictGet data₂ "waiting_list" = some (.arr (wl.set i (.obj r))) ∧
         dictGet r "name" = some (dictGetD body "name" oldName) ∧
         dictGet r "count" = some (dictGetD body "count" oldCount) ∧
         (∀ k, k ≠ "name" → k ≠ "count" → dictGet r k = dictGet old k)) ∧
    (∀ (data body : Obj) (iid : String) (wl : List JSON),
       dictGetD data "waiting_list" (.arr []) = .arr wl →
       findById wl iid 0 = some none →
       update_waiting_list_item iid body data = some (data, 404)) := by
  refine ⟨?_, ?_, ?_, ?_, ?_, ?_, ?_, ?_⟩
  · intro data body pid ps i old hps hfind
    have hup : update_provider pid body data =
        some (dictSet data "providers" (.arr (ps.set i (.obj
          (dictSet (dictSet body "execution" (dictGetD old "execution" (.obj [])))
            "id" (.str pid))))), 200) := by
      simp [update_provider, hps, asArr, hfind]
    refine ⟨_, _, hup, dictGet_dictSet_self _ _ _, dictGet_dictSet_self _ _ _, ?_, ?_⟩
    · rw [dictGet_dictSet_ne _ _ _ _ (by decide), dictGet_dictSet_self]
    · intro k hk₁ hk₂
      rw [dictGet_dictSet_ne _ _ _ _ hk₁, dictGet_dictSet_ne _ _ _ _ hk₂]
  · intro data body pid ps hps hfind
    simp [update_provider, hps, asArr, hfind]
  · intro data body rid rs i old hrs hfind
    have hup : handle_single_regulador_put rid body data =
        some (dictSet data "reguladores" (.arr (rs.set i (.obj
          (dictSet body "id" (.str rid))))), 200) := by
      simp [handle_single_regulador_put, hrs, asArr, hfind]
    refine ⟨_, _, hup, dictGet_dictSet_self _ _ _, dictGet_dictSet_self _ _ _, ?_⟩
    intro k hk
    rw [dictGet_dictSet_ne _ _ _ _ hk]
  · intro data body rid rs hrs hfind
    simp [handle_single_regulador_put, hrs, asArr, hfind]
  · intro data body pid bs i old hbs hfind
    have hup : update_bloqueio_provider pid body data =
        some (dictSet data "bloqueio_providers" (.arr (bs.set i (.obj
          (dictSet body "id" (.str pid))))), 200) := by
      simp [update_bloqueio_provider, hbs, asArr, hfind]
    refine ⟨_, _, hup, dictGet_dictSet_self _ _ _, dictGet_dictSet_self _ _ _, ?_⟩
    intro k hk
    rw [dictGet_dictSet_ne _ _ _ _ hk]
  · intro data body pid bs hbs hfind
    simp [update_bloqueio_provider, hbs, asArr, hfind]
  · intro data body iid wl i old oldName oldCount hwl hfind hname hcount
    have hc : dictGet (dictSet old "name" (dictGetD body "name" oldName)) "count"
        = some oldCount := by
      rw [dictGet_dictSet_ne _ _ _ _ (by decide)]
      exact hcount
    have hup : update_waiting_list_item iid body data =
        some (dictSet data "waiting_list" (.arr (wl.set i (.obj
          (dictSet (dictSet old "name" (dictGetD body "name" oldName))
            "count" (dictGetD body "count" oldCount))))), 200) := by
      simp [update_waiting_list_item, hwl, asArr, hfind, hname, hc]
    refine ⟨_, _, hup, dictGet_dictSet_self _ _ _, ?_, dictGet_dictSet_self _ _ _, ?_⟩
    · rw [dictGet_dictSet_ne _ _ _ _ (by decide), dictGet_dictSet_self]
    · intro k hk₁ hk₂
      rw [dictGet_dictSet_ne _ _ _ _ hk₂, dictGet_dictSet_ne _ _ _ _ hk₁]
  · intro data body iid wl hwl hfind
    simp [update_waiting_list_item, hwl, asArr, hfind]

/-- C4 witness: a regulador PUT at a concrete state. -/
theorem C4_witness :
    ∃ data₂ r,
      handle_single_regulador_put "r1" [("name", .str "Dr B")]
          [("reguladores", .arr [.obj [("id", .str "r1"), ("name", .str "Dr A")]])]
        = some (data₂, 200) ∧
      dictGet data₂ "reguladores" = some (.arr
        ([JSON.obj [("id", .str "r1"), ("name", .str "Dr A")]].set 0 (.obj r))) ∧
      dictGet r "id" = some (.str "r1") ∧
      (∀ k, k ≠ "id" → dictGet r k = dictGet [("name", JSON.str "Dr B")] k) :=
  C4_put_semantics.2.2.1 _ _ "r1"
    [.obj [("id", .str "r1"), ("name", .str "Dr A")]] 0
    [("id", .str "r1"), ("name", .str "Dr A")] rfl rfl

-- Claim C5 --------------------------------------------------------------------

/-- C5: writing a month entry of a provider execution map and reading the
provider back yields exactly the data written; the PUT creates the map when
the provider has none; deleting that month removes only that key, leaving the
sibling months, the other fields of the record and the other providers
untouched; and both the PUT and the DELETE answer 404 when the provider is
absent, as does the DELETE when the month key (or the whole map) is absent. -/
theorem C5_execution_roundtrip :
    (∀ (data : Obj) (pid mk : String) (d : JSON) (ps : List JSON) (i : Nat)
        (old ex : Obj),
       dictGetD data "providers" (.arr []) = .arr ps →
       findById ps pid 0 = some (some (i, old)) →
       dictGet old "execution" = some (.obj ex) →
       ∃ data₂ r,
         update_execution pid mk d data = some (data₂, 200) ∧
         dictGet data₂ "providers" = some (.arr (ps.set i (.obj r))) ∧
         (ps.set i (.obj r))[i]? = some (.obj r) ∧
         dictGet r "execution" = some (.obj (dictSet ex mk d)) ∧
         dictGet (dictSet ex mk d) mk = some d ∧
         (∀ k, k ≠ mk → dictGet (dictSet ex mk d) k = dictGet ex k) ∧
         (∀ k, k ≠ "execution" → dictGet r k = dictGet old k) ∧
         (∀ j, j ≠ i → (ps.set i (.obj r))[j]? = ps[j]?)) ∧
    (∀ (data : Obj) (pid mk : String) (d : JSON) (ps : List JSON) (i : Nat)
        (old : Obj),
       dictGetD data "providers" (.arr []) = .arr ps →
       findById ps pid 0 = some (some (i, old)) →
       dictGet old "execution" = none →
       ∃ data₂ r,
         update_execution pid mk d data = some (data₂, 200) ∧
         dictGet data₂ "providers" = some (.arr (ps.set i (.obj r))) ∧
         dictGet r "execution" = some (.obj [(mk, d)])) ∧
    (∀ (data : Obj) (pid mk : String) (ps : List JSON) (i : Nat) (old ex : Obj),
       dictGetD data "providers" (.arr []) = .arr ps →
       findById ps pid 0 = some (some (i, old)) →
       dictGet old "execution" = some (.obj ex) →
       keysNodup ex →
       dictMem ex mk = true →
       ∃ data₂ r,
         delete_execution pid mk data = some (data₂, 200) ∧
         dictGet data₂ "providers" = some (.arr (ps.set i (.obj r))) ∧
         dictGet r "execution" = some (.obj (dictDel ex mk)) ∧
         dictGet (dictDel ex mk) mk = none ∧
         (∀ k, k ≠ mk → dictGet (dictDel ex mk) k = dictGet ex k) ∧
         (∀ k, k ≠ "execution" → dictGet r k = dictGet old k) ∧
         (∀ j, j ≠ i → (ps.set i (.obj r))[j]? = ps[j]?)) ∧
    (∀ (data : Obj) (pid mk : String) (d : JSON) (ps : List JSON),
       dictGetD data "providers" (.arr []) = .arr ps →
       findById ps pid 0 = some none →
       update_execution pid mk d data = some (data, 404)) ∧
    (∀ (data : Obj) (pid mk : String) (ps : List JSON),
       dictGetD data "providers" (.arr []) = .arr ps →
       findById ps pid 0 = some none →
       delete_execution pid mk data = some (data, 404)) ∧
    (∀ (data : Obj) (pid mk : String) (ps : List JSON) (i : Nat) (old ex : Obj),
       dictGetD data "providers" (.arr []) = .arr ps →
       findById ps pid 0 = some (some (i, old)) →
       dictGet old "execution" = some (.obj ex) →
       dictMem ex mk = false →
       delete_execution pid mk data = some (data, 404)) ∧
    (∀ (data : Obj) (pid mk : String) (ps : List JSON) (i : Nat) (old : Obj),
       dictGetD data "providers" (.arr []) = .arr ps →
       findById ps pid 0 = some (some (i, old)) →
       dictGet old "execution" = none →
       delete_execution pid mk data = some (data, 404)) := by
  refine ⟨?_, ?_, ?_, ?_, ?_, ?_, ?_⟩
  · intro data pid mk d ps i old ex hps hfind hexec
    have hi : i < ps.length := (findById_zero ps pid i old hfind).1
    have hmem : dictMem old "execution" = true := by simp [dictMem, hexec]
    have hup : update_execution pid mk d data =
        some (dictSet data "providers" (.arr (ps.set i (.obj
          (dictSet old "execution" (.obj (dictSet ex mk d)))))), 200) := by
      simp [update_execution, hps, asArr, hfind, hmem, hexec]
    refine ⟨_, _, hup, dictGet_dictSet_self _ _ _,
      List.getElem?_set_eq_of_lt _ hi, dictGet_dictSet_self _ _ _,
      dictGet_dictSet_self _ _ _, ?_, ?_, ?_⟩
    · intro k hk
      exact dictGet_dictSet_ne _ _ _ _ hk
    · intro k hk
      exact dictGet_dictSet_ne _ _ _ _ hk
    · intro j hj
      exact List.getElem?_set_ne (Ne.symm hj)
  · intro data pid mk d ps i old hps hfind hexec
    have hmem : dictMem old "execution" = false := by simp [dictMem, hexec]
    have hget : dictGet (dictSet old "execution" (.obj [])) "execution"
        = some (.obj []) := dictGet_dictSet_self _ _ _
    have hup : update_execution pid mk d data =
        some (dictSet data "providers" (.arr (ps.set i (.obj
          (dictSet (dictSet old "execution" (.obj []))
            "execution" (.obj (dictSet [] mk d)))))), 200) := by
      simp [update_execution, hps, asArr, hfind, hmem, hget]
    exact ⟨_, _, hup, dictGet_dictSet_self _ _ _, dictGet_dictSet_self _ _ _⟩
  · intro data pid mk ps i old ex hps hfind hexec hnodup hmem
    have hi : i < ps.length := (findById_zero ps pid i old hfind).1
    have hup : delete_execution pid mk data =
        some (dictSet data "providers" (.arr (ps.set i (.obj
          (dictSet old "execution" (.obj (dictDel ex mk)))))), 200) := by
      simp [delete_execution, hps, asArr, hfind, hexec, hmem]
    refine ⟨_, _, hup, dictGet_dictSet_self _ _ _, dictGet_dictSet_self _ _ _,
      dictGet_dictDel_self _ _ hnodup, ?_, ?_, ?_⟩
    · intro k hk
      exact dictGet_dictDel_ne _ _ _ hk
    · intro k hk
      exact dictGet_dictSet_ne _ _ _ _ hk
    · intro j hj
      exact List.getElem?_set_ne (Ne.symm hj)
  · intro data pid mk d ps hps hfind
    simp [update_execution, hps, asArr, hfind]
  · intro data pid mk ps hps hfind
    simp [delete_execution, hps, asArr, hfind]
  · intro data pid mk ps i old ex hps hfind hexec hmem
    simp [delete_execution, hps, asArr, hfind, hexec, hmem]
  · intro data pid mk ps i old hps hfind hexec
    simp [delete_execution, hps, asArr, hfind, hexec]

/-- C5 witness: a PUT of month 2024-01 on a provider that already holds data
for 2023-12. -/
theorem C5_witness :
    ∃ data₂ r,
      update_execution "p1" "2024-01" (.num 7)
          [("providers", .arr [.obj [("id", .str "p1"),
            ("execution", .obj [("2023-12", .num 3)])]])]
        = some (data₂, 200) ∧
      dictGet data₂ "providers" = some (.arr
        ([JSON.obj [("id", .str "p1"), ("execution", .obj [("2023-12", .num 3)])]].set 0
          (.obj r))) ∧
      (([JSON.obj [("id", .str "p1"),
          ("execution", .obj [("2023-12", .num 3)])]].set 0 (.obj r)))[0]?
        = some (.obj r) ∧
      dictGet r "execution"
        = some (.obj (dictSet [("2023-12", .num 3)] "2024-01" (.num 7))) ∧
      dictGet (dictSet [("2023-12", JSON.num 3)] "2024-01" (.num 7)) "2024-01"
        = some (.num 7) ∧
      (∀ k, k ≠ "2024-01" →
        dictGet (dictSet [("2023-12", JSON.num 3)] "2024-01" (.num 7)) k
          = dictGet [("2023-12", JSON.num 3)] k) ∧
      (∀ k, k ≠ "execution" →
        dictGet r k
          = dictGet [("id", JSON.str "p1"),
              ("execution", .obj [("2023-12", .num 3)])] k) ∧
      (∀ j, j ≠ 0 →
        (([JSON.obj [("id", .str "p1"),
            ("execution", .obj [("2023-12", .num 3)])]].set 0 (.obj r)))[j]?
          = [JSON.obj [("id", .str "p1"),
              ("execution", .obj [("2023-12", .num 3)])]][j]?) :=
  C5_execution_roundtrip.1 _ "p1" "2024-01" (.num 7)
    [.obj [("id", .str "p1"), ("execution", .obj [("2023-12", .num 3)])]] 0
    [("id", .str "p1"), ("execution", .obj [("2023-12", .num 3)])]
    [("2023-12", .num 3)] rfl rfl rfl

-- Claim C6 --------------------------------------------------------------------

/-- C6: an etiqueta POST with a known series name appends the entry to that
series and overwrites its cursor with the supplied next value, touching no
other series and no other top-level collection; an unknown series name answers
400 with the state unchanged. -/
theorem C6_etiquetas_post :
    (∀ (data body et series : Obj) (t : String) (e ns : JSON) (h : List JSON),
       dictGetD data "etiquetas" (.obj []) = .obj et →
       dictGet body "type" = some (.str t) →
       dictGet body "entry" = some e →
       dictGet body "next_start" = some ns →
       dictGet et t = some (.obj series) →
       dictGet series "history" = some (.arr h) →
       ∃ data₂ s₂,
         handle_etiquetas_post body data = some (data₂, 200) ∧
         dictGet data₂ "etiquetas" = some (.obj (dictSet et t (.obj s₂))) ∧
         dictGet (dictSet et t (.obj s₂)) t = some (.obj s₂) ∧
         dictGet s₂ "history" = some (.arr (h ++ [e])) ∧
         dictGet s₂ "current_start" = some ns ∧
         (∀ t₀, t₀ ≠ t → dictGet (dictSet et t (.obj s₂)) t₀ = dictGet et t₀) ∧
         (∀ k, k ≠ "etiquetas" → dictGet data₂ k = dictGet data k)) ∧
    (∀ (data body et : Obj) (t : String),
       dictGetD data "etiquetas" (.obj []) = .obj et →
       dictGet body "type" = some (.str t) →
       dictMem et t = false →
       handle_etiquetas_post body data = some (data, 400)) := by
  constructor
  · intro data body et series t e ns h het htype hentry hns hser hhist
    have hmem : dictMem et t = true := by simp [dictMem, hser]
    have hup : handle_etiquetas_post body data =
        some (dictSet data "etiquetas" (.obj (dictSet et t (.obj
          (dictSet (dictSet series "history" (.arr (h ++ [e])))
            "current_start" ns)))), 200) := by
      simp [handle_etiquetas_post, htype, het, hmem, hser, hhist, hentry, hns]
    refine ⟨_, _, hup, dictGet_dictSet_self _ _ _, dictGet_dictSet_self _ _ _,
      ?_, dictGet_dictSet_self _ _ _, ?_, ?_⟩
    · rw [dictGet_dictSet_ne _ _ _ _ (by decide), dictGet_dictSet_self]
    · intro t₀ ht₀
      exact dictGet_dictSet_ne _ _ _ _ ht₀
    · intro k hk
      exact dictGet_dictSet_ne _ _ _ _ hk
  · intro data body et t het htype hmem
    simp [handle_etiquetas_post, htype, het, hmem]

/-- C6 witness: appending to the aih-mac series of a two-series state. -/
theorem C6_witness :
    ∃ data₂ s₂,
      handle_etiquetas_post
          [("type", .str "aih-mac"), ("entry", .str "E1"), ("next_start", .str "101")]
          [("etiquetas", .obj
            [("aih-mac", .obj [("history", .arr []), ("current_start", .str "100")]),
             ("apac-mac", .obj [("history", .arr []), ("current_start", .str "200")])])]
        = some (data₂, 200) ∧
      dictGet data₂ "etiquetas" = some (.obj (dictSet
        [("aih-mac", .obj [("history", .arr []), ("current_start", .str "100")]),
         ("apac-mac", .obj [("history", .arr []), ("current_start", .str "200")])]
        "aih-mac" (.obj s₂))) ∧
      dictGet (dictSet
        [("aih-mac", .obj [("history", .arr []), ("current_start", .str "100")]),
         ("apac-mac", .obj [("history", .arr []), ("current_start", .str "200")])]
        "aih-mac" (.obj s₂)) "aih-mac" = some (.obj s₂) ∧
      dictGet s₂ "history" = some (.arr ([] ++ [.str "E1"])) ∧
      dictGet s₂ "current_start" = some (.str "101") ∧
      (∀ t₀, t₀ ≠ "aih-mac" → dictGet (dictSet
        [("aih-mac", .obj [("history", .arr []), ("current_start", .str "100")]),
         ("apac-mac", .obj [("history", .arr []), ("current_start", .str "200")])]
        "aih-mac" (.obj s₂)) t₀ = dictGet
        [("aih-mac", .obj [("history", .arr []), ("current_start", .str "100")]),
         ("apac-mac", .obj [("history", .arr []), ("current_start", .str "200")])] t₀) ∧
      (∀ k, k ≠ "etiquetas" → dictGet data₂ k = dictGet
        [("etiquetas", .obj
          [("aih-mac", .obj [("history", .arr []), ("current_start", .str "100")]),
           ("apac-mac", .obj [("history", .arr []), ("current_start", .str "200")])])] k) :=
  C6_etiquetas_post.1 _
    [("type", .str "aih-mac"), ("entry", .str "E1"), ("next_start", .str "101")]
    [("aih-mac", .obj [("history", .arr []), ("current_start", .str "100")]),
     ("apac-mac", .obj [("history", .arr []), ("current_start", .str "200")])]
    [("history", .arr []), ("current_start", .str "100")]
    "aih-mac" (.str "E1") (.str "101") []
    rfl rfl rfl rfl rfl rfl

-- Claim C7 --------------------------------------------------------------------

/-- C8: login answers 401 exactly when the CPF string is absent from the users
collection and 200 exactly when it is present; creating an absent CPF through
the users POST and retrying the login then succeeds. -/
theorem C8_login_allowlist (data : Obj) (users : List JSON) (s : String)
    (hus : dictGetD data "users" (.arr []) = .arr users) :
    (login (some (.str s)) data = some 401 ↔ (JSON.str s) ∉ users) ∧
    (login (some (.str s)) data = some 200 ↔ (JSON.str s) ∈ users) ∧
    (s ≠ "" → (JSON.str s) ∉ users →
      ∃ data₂, add_user (some (.str s)) data = some (data₂, 201) ∧
        login (some (.str s)) data₂ = some 200) := by
  refine ⟨?_, ?_, ?_⟩
  · by_cases hm : (JSON.str s) ∈ users
    · have hp : pyIn (.str s) users = true := (pyIn_str_iff s users).mpr hm
      simp [login, hus, asArr, hp, hm]
    · have hp : pyIn (.str s) users = false := by
        cases hp₂ : pyIn (.str s) users
        · rfl
        · exact absurd ((pyIn_str_iff s users).mp hp₂) hm
      simp [login, hus, asArr, hp, hm]
  · by_cases hm : (JSON.str s) ∈ users
    · have hp : pyIn (.str s) users = true := (pyIn_str_iff s users).mpr hm
      simp [login, hus, asArr, hp, hm]
    · have hp : pyIn (.str s) users = false := by
        cases hp₂ : pyIn (.str s) users
        · rfl
        · exact absurd ((pyIn_str_iff s users).mp hp₂) hm
      simp [login, hus, asArr, hp, hm]
  · intro hs hm
    have hp : pyIn (.str s) users = false := by
      cases hp₂ : pyIn (.str s) users
      · rfl
      · exact absurd ((pyIn_str_iff s users).mp hp₂) hm
    have htr : pyTruthy (.str s) = true := by simp [pyTruthy, hs]
    have hadd : add_user (some (.str s)) data
        = some (dictSet data "users" (.arr (users ++ [.str s])), 201) := by
      simp [add_user, htr, hus, asArr, hp]
    refine ⟨_, hadd, ?_⟩
    have hus₂ : dictGetD (dictSet data "users" (.arr (users ++ [.str s])))
        "users" (.arr []) = .arr (users ++ [.str s]) := by
      simp [dictGetD, dictGet_dictSet_self]
    have hp₂ : pyIn (.str s) (users ++ [.str s]) = true :=
      (pyIn_str_iff s _).mpr (by simp)
    simp [login, hus₂, asArr, hp₂]

/-- C8 witness: the CPF 123 is rejected, then created, then accepted. -/
theorem C8_witness :
    (login (some (.str "123")) [("users", .arr [.str "74892016357"])] = some 401 ↔
      (JSON.str "123") ∉ [JSON.str "74892016357"]) ∧
    (login (some (.str "123")) [("users", .arr [.str "74892016357"])] = some 200 ↔
      (JSON.str "123") ∈ [JSON.str "74892016357"]) ∧
    ("123" ≠ "" → (JSON.str "123") ∉ [JSON.str "74892016357"] →
      ∃ data₂,
        add_user (some (.str "123")) [("users", .arr [.str "74892016357"])]
          = some (data₂, 201) ∧
        login (some (.str "123")) data₂ = some 200) :=
  C8_login_allowlist [("users", .arr [.str "74892016357"])]
    [.str "74892016357"] "123" rfl

-- Claim C10 -------------------------------------------------------------------

/-- A request against the user endpoints that can change the store. -/
inductive UserOp where
  | addU (cpf : Option JSON)
  | delU (cpf : String)

/-- The persisted document after one user request; a request that raises
persists nothing. -/
def applyUserOp (op : UserOp) (data : Obj) : Obj :=
  match op with
  | .addU c =>
    match add_user c data with
    | some (d, _) => d
    | none => data
  | .delU c =>
    match delete_user c data with
    | some (d, _) => d
    | none => data

/-- The persisted document after a sequence of user requests. -/
def applyUserOps (ops : List UserOp) (data : Obj) : Obj :=
  ops.foldl (fun d op => applyUserOp op d) data

/-- The users collection, when it is a list, holds no two equal entries. -/
def usersNodup (data : Obj) : Prop :=
  ∀ l, dictGet data "users" = some (.arr l) → l.Nodup

theorem add_user_preserves_nodup (c : Option JSON) (data : Obj)
    (h : usersNodup data) : usersNodup (applyUserOp (.addU c) data) := by
  by_cases htr : pyTruthy (c.getD .null) = true
  · cases hg : dictGet data "users" with
    | none =>
      have : add_user c data
          = some (dictSet data "users" (.arr [c.getD .null]), 201) := by
        simp [add_user, htr, dictGetD, hg, asArr, pyIn]
      intro l hl
      simp only [applyUserOp, this] at hl
      rw [dictGet_dictSet_self] at hl
      cases hl
      simp
    | some v =>
      cases v with
      | arr users =>
        by_cases hin : pyIn (c.getD .null) users = true
        · have : add_user c data = some (data, 400) := by
            simp [add_user, htr, dictGetD, hg, asArr, hin]
          simpa [applyUserOp, this] using h
        · have hin₂ : pyIn (c.getD .null) users = false := by
            cases hp : pyIn (c.getD .null) users
            · rfl
            · exact absurd hp hin
          have : add_user c data
              = some (dictSet data "users" (.arr (users ++ [c.getD .null])), 201) := by
            simp [add_user, htr, dictGetD, hg, asArr, hin₂]
          intro l hl
          simp only [applyUserOp, this] at hl
          rw [dictGet_dictSet_self] at hl
          cases hl
          have hnd : users.Nodup := h users (by simp [hg])
          have hnm : (c.getD .null) ∉ users := pyIn_eq_false_not_mem _ _ hin₂
          simp [List.nodup_append, hnd, hnm]
      | null =>
        have : add_user c data = none := by
          simp [add_user, htr, dictGetD, hg, asArr]
        simpa [applyUserOp, this] using h
      | bool b =>
        have : add_user c data = none := by
          simp [add_user, htr, dictGetD, hg, asArr]
        simpa [applyUserOp, this] using h
      | num n =>
        have : add_user c data = none := by
          simp [add_user, htr, dictGetD, hg, asArr]
        simpa [applyUserOp, this] using h
      | str s =>
        have : add_user c data = none := by
          simp [add_user, htr, dictGetD, hg, asArr]
        simpa [applyUserOp, this] using h
      | obj f =>
        have : add_user c data = none := by
          simp [add_user, htr, dictGetD, hg, asArr]
        simpa [applyUserOp, this] using h
  · have htr₂ : pyTruthy (c.getD .null) = false := by
      cases hp : pyTruthy (c.getD .null)
      · rfl
      · exact absurd hp htr
    have : add_user c data = some (data, 400) := by
      simp [add_user, htr₂]
    simpa [applyUserOp, this] using h

theorem delete_user_preserves_nodup (c : String) (data : Obj)
    (h : usersNodup data) : usersNodup (applyUserOp (.delU c) data) := by
  cases hg : dictGet data "users" with
  | none =>
    have : delete_user c data = some (data, 404) := by
      simp [delete_user, dictGetD, hg, asArr, pyIn]
    simpa [applyUserOp, this] using h
  | some v =>
    cases v with
    | arr users =>
      by_cases hin : pyIn (.str c) users = true
      · have : delete_user c data
            = some (dictSet data "users"
                (.arr (users.eraseP (fun y => jsonBeq y (.str c)))), 200) := by
          simp [delete_user, dictGetD, hg, asArr, hin]
        intro l hl
        simp only [applyUserOp, this] at hl
        rw [dictGet_dictSet_self] at hl
        cases hl
        exact (h users (by simp [hg])).sublist (List.eraseP_sublist _)
      · have hin₂ : pyIn (.str c) users = false := by
          cases hp : pyIn (.str c) users
          · rfl
          · exact absurd hp hin
        have : delete_user c data = some (data, 404) := by
          simp [delete_user, dictGetD, hg, asArr, hin₂]
        simpa [applyUserOp, this] using h
    | null =>
      have : delete_user c data = none := by
        simp [delete_user, dictGetD, hg, asArr]
      simpa [applyUserOp, this] using h
    | bool b =>
      have : delete_user c data = none := by
        simp [delete_user, dictGetD, hg, asArr]
      simpa [applyUserOp, this] using h
    | num n =>
      have : delete_user c data = none := by
        simp [delete_user, dictGetD, hg, asArr]
      simpa [applyUserOp, this] using h
    | str s =>
      have : delete_user c data = none := by
        simp [delete_user, dictGetD, hg, asArr]
      simpa [applyUserOp, this] using h
    | obj f =>
      have : delete_user c data = none := by
        simp [delete_user, dictGetD, hg, asArr]
      simpa [applyUserOp, this] using h

/-- C10: a users POST whose CPF is missing, empty or already present answers
400 without changing the persisted state, and along any sequence of user
requests the users collection stays free of duplicate entries. -/
theorem C10_users_duplicate_free :
    (∀ data : Obj, add_user none data = some (data, 400)) ∧
    (∀ data : Obj, add_user (some (.str "")) data = some (data, 400)) ∧
    (∀ (data : Obj) (users : List JSON) (c : JSON),
       dictGetD data "users" (.arr []) = .arr users →
       pyIn c users = true →
       add_user (some c) data = some (data, 400)) ∧
    (∀ (ops : List UserOp) (data : Obj),
       usersNodup data → usersNodup (applyUserOps ops data)) := by
  refine ⟨?_, ?_, ?_, ?_⟩
  · intro data
    simp [add_user, pyTruthy]
  · intro data
    simp [add_user, pyTruthy]
  · intro data users c hus hin
    by_cases htr : pyTruthy c = true
    · simp [add_user, htr, hus, asArr, hin]
    · have htr₂ : pyTruthy c = false := by
        cases hp : pyTruthy c
        · rfl
        · exact absurd hp htr
      simp [add_user, htr₂]
  · intro ops
    induction ops with
    | nil => intro data h; simpa [applyUserOps] using h
    | cons op rest ih =>
      intro data h
      have h₂ : usersNodup (applyUserOp op data) := by
        cases op with
        | addU c => exact add_user_preserves_nodup c data h
        | delU c => exact delete_user_preserves_nodup c data h
      simpa [applyUserOps, List.foldl_cons] using ih (applyUserOp op data) h₂

/-- C10 witness: adding a CPF twice; the second POST is rejected with the
state unchanged. -/
theorem C10_witness :
    add_user (some (.str "74892016357")) [("users", .arr [.str "74892016357"])]
      = some ([("users", .arr [.str "74892016357"])], 400) :=
  C10_users_duplicate_free.2.2.1 [("users", .arr [.str "74892016357"])]
    [.str "74892016357"] (.str "74892016357") rfl (by simp [pyIn, jsonBeq])
